import Mathlib

/-!
# Verification of the admin CRUD layer

Shallow embedding of the admin/content-management layer of the portfolio
website: the `AdminProjects` and `AdminBlog` form controllers
(`src/pages/admin/AdminProjects.tsx`), the shared record types
(`src/types.ts`), and the fallback-aware image component
(`src/components/Image.tsx`).

Conventions of the embedding:
* JavaScript strings are Lean `String`s; `s.trim()` is `jsTrim`,
  `s.split(',')` is `jsSplit ','`, and `s.length` is `String.length` (the
  inputs we evaluate are ASCII, where UTF-16 code-unit length and codepoint
  length agree).
* A JavaScript string used as a boolean (`if (s)`, `a || b`) is truthy
  exactly when it is non-empty, so `ep?.id || fresh` becomes
  `if ep.id = "" then fresh else ep.id`.
* React state updates inside one event handler are modelled as a single
  pure state transition: the handler reads the state snapshot and the
  transition's result is the state after React applies all `set*` calls.
* The browser clock (`Date.now()`, `new Date().toISOString()`) and the
  remote projects service are environment inputs, passed as parameters.
* `new URL(url)` (the platform URL parser used by `isValidUrl`) is not code
  of this repository; it is abstracted as a parameter
  `isValidUrl : String → Bool`.
-/

namespace Echo

/-- JavaScript `String.prototype.trim()`: the string with leading and
trailing whitespace removed.  Modelled structurally on the character list so
the kernel can evaluate it on literals. -/
def jsTrim (s : String) : String :=
  ⟨((s.data.dropWhile Char.isWhitespace).reverse.dropWhile Char.isWhitespace).reverse⟩

/-- Accumulator pass of `jsSplit`: `acc` holds the current segment reversed. -/
def jsSplitAux (sep : Char) : List Char → List Char → List (List Char)
  | [], acc => [acc.reverse]
  | c :: cs, acc =>
      if c = sep then acc.reverse :: jsSplitAux sep cs []
      else jsSplitAux sep cs (c :: acc)

/-- JavaScript `String.prototype.split(sep)` for a one-character separator:
the segments between occurrences of `sep`, empty segments included
(`''.split(',')` is `['']`). -/
def jsSplit (sep : Char) (s : String) : List String :=
  (jsSplitAux sep s.data []).map List.asString

/-- `BlogPost` from `src/types.ts`: id, title, content, date, all strings. -/
structure BlogPost where
  id : String
  title : String
  content : String
  date : String
deriving DecidableEq, Repr

/-- `Project` from `src/types.ts`: `image` and `link` are optional fields. -/
structure Project where
  id : String
  title : String
  description : String
  image : Option String
  link : Option String
  date : String
  tags : List String
deriving DecidableEq, Repr

/-- The draft held by `AdminBlog`'s `formData` state. -/
structure BlogFormData where
  title : String
  content : String
deriving DecidableEq, Repr

/-- The draft held by `AdminProjects`'s `formData` state. -/
structure ProjectFormData where
  title : String
  description : String
  image : String
  link : String
  tags : List String
deriving DecidableEq, Repr

/-- `FormErrors` of `AdminBlog`: an entry is `some msg` exactly when the
corresponding key is set in the errors object. -/
structure BlogFormErrors where
  title : Option String
  content : Option String
deriving DecidableEq, Repr

/-- `FormErrors` of `AdminProjects`. -/
structure ProjectFormErrors where
  title : Option String
  description : Option String
  image : Option String
  link : Option String
deriving DecidableEq, Repr

/-- `AdminBlog.validateForm` (AdminProjects.tsx lines 333-350), the error
object it constructs.  Each field's branch chain is exactly the source's
`if`/`else if` chain; note the emptiness test uses `trim()` while the length
test uses the raw length. -/
def validateBlogForm (d : BlogFormData) : BlogFormErrors where
  title :=
    if (jsTrim d.title) = "" then some "Başlık zorunludur"
    else if d.title.length < 3 then some "Başlık en az 3 karakter olmalıdır"
    else none
  content :=
    if (jsTrim d.content) = "" then some "İçerik zorunludur"
    else if d.content.length < 50 then some "İçerik en az 50 karakter olmalıdır"
    else none

/-- `AdminProjects.validateForm` (lines 44-69), parametrised by the platform's
URL parser (`isValidUrl` wraps `new URL`). `formData.image &&` tests
truthiness, i.e. non-emptiness. -/
def validateProjectForm (isValidUrl : String → Bool) (d : ProjectFormData) :
    ProjectFormErrors where
  title :=
    if (jsTrim d.title) = "" then some "Başlık zorunludur"
    else if d.title.length < 3 then some "Başlık en az 3 karakter olmalıdır"
    else none
  description :=
    if (jsTrim d.description) = "" then some "Açıklama zorunludur"
    else if d.description.length < 10 then some "Açıklama en az 10 karakter olmalıdır"
    else none
  image :=
    if d.image ≠ "" && !(isValidUrl d.image) then some "Geçerli bir URL giriniz"
    else none
  link :=
    if d.link ≠ "" && !(isValidUrl d.link) then some "Geçerli bir URL giriniz"
    else none

/-- `Object.keys(errors).length === 0` for the blog errors object: keys are
present exactly for the fields assigned a message. -/
def BlogFormErrors.isEmpty (e : BlogFormErrors) : Bool :=
  e.title.isNone && e.content.isNone

/-- `Object.keys(errors).length === 0` for the project errors object. -/
def ProjectFormErrors.isEmpty (e : ProjectFormErrors) : Bool :=
  e.title.isNone && e.description.isNone && e.image.isNone && e.link.isNone

/-- The value stored under the `'blogPosts'` key of `localStorage`, classified
the way `AdminBlog`'s mount effect (lines 326-331) branches on it:
* `absent` — `getItem` returned `null` or the empty string (both falsy, the
  `if (storedPosts)` guard skips the read);
* `wellFormed ps` — a string `JSON.parse` turns into the array of posts `ps`
  (the shape `JSON.stringify` of a post array produces);
* `malformed` — a non-empty string on which `JSON.parse` throws a
  `SyntaxError` (e.g. the string `not json`). -/
inductive Stored where
  | absent
  | wellFormed (posts : List BlogPost)
  | malformed
deriving DecidableEq, Repr

/-- The `AdminBlog` component state: the posts list, the `editingPost`
selection, the draft, the error annotations, and the persisted
`localStorage` blob the handlers rewrite. -/
structure BlogState where
  posts : List BlogPost
  editingPost : Option BlogPost
  formData : BlogFormData
  formErrors : BlogFormErrors
  storage : Stored
deriving DecidableEq, Repr

/-- `AdminBlog`'s mount effect (lines 326-331): read the stored blob, parse
it when present.  `JSON.parse` is not wrapped in `try`/`catch`, so a parse
failure propagates out of the effect as an exception (`.error`) instead of
being recovered. -/
def blogMountPosts : Stored → Except String (List BlogPost)
  | .absent => .ok []
  | .wellFormed ps => .ok ps
  | .malformed => .error "SyntaxError: JSON.parse"

/-- `AdminBlog.handleSubmit` (lines 352-374).  `nowId` is
`Date.now().toString()` and `nowDate` is `new Date().toISOString()` at the
moment of the submit.  `editingPost?.id || nowId` takes `nowId` both when no
post is being edited and when the edited post's id is the empty string
(falsy); likewise for the date.  `validateForm` stores its error object
unconditionally; an invalid draft returns before touching posts or storage;
a valid one replaces (when editing) or appends (when creating), rewrites the
storage blob, and resets the form. -/
def handleBlogSubmit (nowId nowDate : String) (s : BlogState) : BlogState :=
  let errors := validateBlogForm s.formData
  if errors.isEmpty then
    let newPost : BlogPost :=
      { id := match s.editingPost with
          | some ep => if ep.id = "" then nowId else ep.id
          | none => nowId
        title := s.formData.title
        content := s.formData.content
        date := match s.editingPost with
          | some ep => if ep.date = "" then nowDate else ep.date
          | none => nowDate }
    let updatedPosts := match s.editingPost with
      | some ep => s.posts.map fun p => if p.id = ep.id then newPost else p
      | none => s.posts ++ [newPost]
    { posts := updatedPosts
      editingPost := none
      formData := { title := "", content := "" }
      formErrors := errors
      storage := .wellFormed updatedPosts }
  else
    { s with formErrors := errors }

/-- `AdminBlog.handleDelete` (lines 384-388): filter the post out and rewrite
the storage blob.  No confirmation prompt appears anywhere in this handler. -/
def handleBlogDelete (id : String) (s : BlogState) : BlogState :=
  let updatedPosts := s.posts.filter fun p => p.id ≠ id
  { s with posts := updatedPosts, storage := .wellFormed updatedPosts }

/-- The blog List View's delete intent (the trash button's `onClick`, line
488): it calls `handleDelete(post.id)` directly.  `answer` is the reply the
user would give to a confirmation prompt; `AdminBlog` never shows one, so the
intent ignores it. -/
def blogDeleteIntent (answer : Bool) (id : String) (s : BlogState) : BlogState :=
  let _ := answer
  handleBlogDelete id s

/-- A request `AdminProjects` issues to the remote projects service. -/
inductive ProjectApiCall where
  | create (d : ProjectFormData)
  | update (id : String) (d : ProjectFormData)
  | delete (id : String)
deriving DecidableEq, Repr

/-- The `AdminProjects` component state (the remote service owns persistence,
so no storage blob appears here; `error` is the generic banner message). -/
structure ProjectState where
  projects : List Project
  editingProject : Option Project
  formData : ProjectFormData
  formErrors : ProjectFormErrors
  error : Option String
deriving DecidableEq, Repr

/-- `AdminProjects.handleSubmit` (lines 80-106).  `remote` is the
environment's answer: `some reloaded` when the api call and the subsequent
`loadProjects` succeed, returning the reloaded collection, `none` when the
api call throws (the `catch` sets the banner).  The result pairs the new
state with the list of api calls issued; an invalid draft issues none. -/
def handleProjectSubmit (isValidUrl : String → Bool)
    (remote : Option (List Project)) (s : ProjectState) :
    ProjectState × List ProjectApiCall :=
  let errors := validateProjectForm isValidUrl s.formData
  if errors.isEmpty then
    let call := match s.editingProject with
      | some ep => ProjectApiCall.update ep.id s.formData
      | none => ProjectApiCall.create s.formData
    match remote with
    | some reloaded =>
        ({ projects := reloaded
           editingProject := none
           formData := { title := "", description := "", image := "", link := "", tags := [] }
           formErrors := errors
           error := none }, [call])
    | none =>
        ({ s with formErrors := errors, error := some "İşlem sırasında bir hata oluştu" },
         [call])
  else
    ({ s with formErrors := errors }, [])

/-- `AdminProjects.handleDelete` (lines 119-136): `window.confirm` gates the
delete; `answer` is the user's reply.  On `no` the handler returns before
issuing anything.  `remote` is as in `handleProjectSubmit`. -/
def handleProjectDelete (answer : Bool) (remote : Option (List Project))
    (id : String) (s : ProjectState) : ProjectState × List ProjectApiCall :=
  if answer then
    match remote with
    | some reloaded => ({ s with projects := reloaded, error := none }, [.delete id])
    | none =>
        ({ s with error := some "Silme işlemi sırasında bir hata oluştu" }, [.delete id])
  else
    (s, [])

/-- Tag parsing in the tags input's `onChange` (lines 230-236): split on
commas, trim each segment, discard empty segments, order preserved. -/
def parseTags (v : String) : List String :=
  ((jsSplit ',' v).map jsTrim).filter (· ≠ "")

/-- The blog title input's `onChange` (lines 411-414): store the new value
and set the `title` error key to `undefined` (clearing that annotation);
no other error key is touched and no re-validation runs. -/
def blogTitleOnChange (v : String) (fd : BlogFormData) (fe : BlogFormErrors) :
    BlogFormData × BlogFormErrors :=
  ({ fd with title := v }, { fe with title := none })

/-- The blog content textarea's `onChange` (line 430): it only calls
`setFormData`; the error annotations are not touched at all. -/
def blogContentOnChange (v : String) (fd : BlogFormData) (fe : BlogFormErrors) :
    BlogFormData × BlogFormErrors :=
  ({ fd with content := v }, fe)

/-- The project title input's `onChange` (lines 172-175): analogous to the
blog title handler. -/
def projectTitleOnChange (v : String) (fd : ProjectFormData)
    (fe : ProjectFormErrors) : ProjectFormData × ProjectFormErrors :=
  ({ fd with title := v }, { fe with title := none })

/-- The project description textarea's `onChange` (line 192): only
`setFormData`; the error annotations are untouched. -/
def projectDescriptionOnChange (v : String) (fd : ProjectFormData)
    (fe : ProjectFormErrors) : ProjectFormData × ProjectFormErrors :=
  ({ fd with description := v }, fe)

/-- The image URL input's `onChange` (line 206): only `setFormData`. -/
def projectImageOnChange (v : String) (fd : ProjectFormData)
    (fe : ProjectFormErrors) : ProjectFormData × ProjectFormErrors :=
  ({ fd with image := v }, fe)

/-- The link input's `onChange` (line 218): only `setFormData`. -/
def projectLinkOnChange (v : String) (fd : ProjectFormData)
    (fe : ProjectFormErrors) : ProjectFormData × ProjectFormErrors :=
  ({ fd with link := v }, fe)

/-- The tags input's `onChange` (lines 230-236): parse and store the tag
list; the error annotations are untouched. -/
def projectTagsOnChange (v : String) (fd : ProjectFormData)
    (fe : ProjectFormErrors) : ProjectFormData × ProjectFormErrors :=
  ({ fd with tags := parseTags v }, fe)

/-- Props of the `Image` component (`src/components/Image.tsx`): the source
and the optional `fallback` prop. -/
structure ImageProps where
  src : String
  fallback : Option String
deriving DecidableEq, Repr

/-- The destructuring default `fallback = '/images/placeholder.png'`
(Image.tsx line 7). -/
def effectiveFallback (p : ImageProps) : String :=
  p.fallback.getD "/images/placeholder.png"

/-- The `src` attribute the component renders (line 12):
`error ? fallback : src`. -/
def renderSrc (p : ImageProps) (error : Bool) : String :=
  if error then effectiveFallback p else p.src

/-- Events a mounted `Image` instance can receive: the `<img>` fires
`onError` (a load failure), or React re-renders the instance (new props or
parent render) — `useState` keeps the flag across re-renders. -/
inductive ImgEvent where
  | loadFail
  | rerender
deriving DecidableEq, Repr

/-- The `error` flag after one event: `onError` runs `setError(true)`
(line 14); nothing in the component ever resets the flag. -/
def stepError (error : Bool) : ImgEvent → Bool
  | .loadFail => true
  | .rerender => error

/-- The `error` flag after a sequence of events, starting from `error`
(`useState(false)` gives the initial value `false` at mount, line 8). -/
def runEvents (error : Bool) (evs : List ImgEvent) : Bool :=
  evs.foldl stepError error

/-! ## Helper lemmas -/

/-- Once the error flag is set, no event resets it. -/
theorem runEvents_of_true (evs : List ImgEvent) : runEvents true evs = true := by
  induction evs with
  | nil => rfl
  | cons e t ih => cases e <;> exact ih

/-! ## Claims -/

/-- Claim C2: validation is a total, pure function of the draft that checks
every field and collects every error on a single run: a draft with empty
title and empty description gets both the title error and the description
error, and the image, link and content rules depend only on their own field,
unaffected by the title/description failures. -/
theorem validation_collects_all_errors :
    (∀ (isValidUrl : String → Bool) (d : ProjectFormData),
      d.title = "" → d.description = "" →
        (validateProjectForm isValidUrl d).title = some "Başlık zorunludur" ∧
        (validateProjectForm isValidUrl d).description = some "Açıklama zorunludur") ∧
    (∀ (isValidUrl : String → Bool) (d₁ d₂ : ProjectFormData),
      d₁.image = d₂.image →
        (validateProjectForm isValidUrl d₁).image = (validateProjectForm isValidUrl d₂).image) ∧
    (∀ (isValidUrl : String → Bool) (d₁ d₂ : ProjectFormData),
      d₁.link = d₂.link →
        (validateProjectForm isValidUrl d₁).link = (validateProjectForm isValidUrl d₂).link) ∧
    (∀ d : BlogFormData, d.title = "" → d.content = "" →
        (validateBlogForm d).title = some "Başlık zorunludur" ∧
        (validateBlogForm d).content = some "İçerik zorunludur") ∧
    (∀ d₁ d₂ : BlogFormData, d₁.content = d₂.content →
        (validateBlogForm d₁).content = (validateBlogForm d₂).content) := by
  refine ⟨?_, ?_, ?_, ?_, ?_⟩
  · intro f d h1 h2
    refine ⟨?_, ?_⟩
    · simp only [validateProjectForm]
      rw [h1]
      decide
    · simp only [validateProjectForm]
      rw [h2]
      decide
  · intro f d₁ d₂ h
    simp only [validateProjectForm]
    rw [h]
  · intro f d₁ d₂ h
    simp only [validateProjectForm]
    rw [h]
  · intro d h1 h2
    refine ⟨?_, ?_⟩
    · simp only [validateBlogForm]
      rw [h1]
      decide
    · simp only [validateBlogForm]
      rw [h2]
      decide
  · intro d₁ d₂ h
    simp only [validateBlogForm]
    rw [h]

/-- Witness for C2 at a concrete draft. -/
theorem validation_collects_all_errors_witness :
    ((validateProjectForm (fun _ => true)
        { title := "", description := "", image := "x", link := "", tags := [] }).title =
      some "Başlık zorunludur" ∧
     (validateProjectForm (fun _ => true)
        { title := "", description := "", image := "x", link := "", tags := [] }).description =
      some "Açıklama zorunludur") ∧
    ((validateBlogForm { title := "", content := "" }).title = some "Başlık zorunludur" ∧
     (validateBlogForm { title := "", content := "" }).content = some "İçerik zorunludur") ∧
    (validateBlogForm { title := "a", content := "c" }).content =
      (validateBlogForm { title := "bbbb", content := "c" }).content :=
  ⟨validation_collects_all_errors.1 (fun _ => true)
      { title := "", description := "", image := "x", link := "", tags := [] } rfl rfl,
   validation_collects_all_errors.2.2.2.1 { title := "", content := "" } rfl rfl,
   validation_collects_all_errors.2.2.2.2
      { title := "a", content := "c" } { title := "bbbb", content := "c" } rfl⟩

/-- Claim C4 (amended): the emptiness test uses the trimmed value, but the
length thresholds apply to the raw, untrimmed value: the title rule passes
iff the trimmed title is non-empty and the raw title has at least 3
characters, the description rule iff the trimmed description is non-empty
and the raw description has at least 10 characters, and the content rule iff
the trimmed content is non-empty and the raw content has at least 50
characters. -/
theorem length_rules_use_raw_length :
    (∀ d : BlogFormData,
      ((validateBlogForm d).title = none ↔
        jsTrim d.title ≠ "" ∧ 3 ≤ d.title.length) ∧
      ((validateBlogForm d).content = none ↔
        jsTrim d.content ≠ "" ∧ 50 ≤ d.content.length)) ∧
    (∀ (isValidUrl : String → Bool) (d : ProjectFormData),
      ((validateProjectForm isValidUrl d).title = none ↔
        jsTrim d.title ≠ "" ∧ 3 ≤ d.title.length) ∧
      ((validateProjectForm isValidUrl d).description = none ↔
        jsTrim d.description ≠ "" ∧ 10 ≤ d.description.length)) := by
  constructor
  · intro d
    constructor <;>
      (simp only [validateBlogForm]; split_ifs with h1 h2 <;> simp_all)
  · intro f d
    constructor <;>
      (simp only [validateProjectForm]; split_ifs with h1 h2 <;> simp_all)

/-- Counterexample to C4 as stated: the draft title `a` followed by two
spaces has a trimmed form of one character, so the claim says it is
rejected, yet the code raises no title error because the raw length is 3. -/
theorem trimmed_length_rule_counterexample :
    (validateBlogForm { title := "a  ", content := "" }).title = none ∧
    ¬ (jsTrim "a  " ≠ "" ∧ 3 ≤ (jsTrim "a  ").length) := by decide

/-- Claim C5 (amended): editing the title field clears the title error and
leaves every other error annotation unchanged; editing any other field
(description, content, image, link, tags) updates the draft but leaves every
error annotation — including its own field's — unchanged; no handler
re-validates. -/
theorem only_title_edit_clears_its_error :
    (∀ (v : String) (fd : BlogFormData) (fe : BlogFormErrors),
      (blogTitleOnChange v fd fe).1 = { fd with title := v } ∧
      (blogTitleOnChange v fd fe).2.title = none ∧
      (blogTitleOnChange v fd fe).2.content = fe.content ∧
      (blogContentOnChange v fd fe).1 = { fd with content := v } ∧
      (blogContentOnChange v fd fe).2 = fe) ∧
    (∀ (v : String) (fd : ProjectFormData) (fe : ProjectFormErrors),
      (projectTitleOnChange v fd fe).2.title = none ∧
      (projectTitleOnChange v fd fe).2.description = fe.description ∧
      (projectTitleOnChange v fd fe).2.image = fe.image ∧
      (projectTitleOnChange v fd fe).2.link = fe.link ∧
      (projectDescriptionOnChange v fd fe).2 = fe ∧
      (projectImageOnChange v fd fe).2 = fe ∧
      (projectLinkOnChange v fd fe).2 = fe ∧
      (projectTagsOnChange v fd fe).2 = fe) :=
  ⟨fun _ _ _ => ⟨rfl, rfl, rfl, rfl, rfl⟩,
   fun _ _ _ => ⟨rfl, rfl, rfl, rfl, rfl, rfl, rfl, rfl⟩⟩

/-- Counterexample to C5 as stated: with a pending content error (and a
pending description error on the project form), editing the content
(description) field leaves that very error in place instead of clearing
it. -/
theorem content_edit_keeps_error_counterexample :
    (blogContentOnChange "new text"
        { title := "T", content := "old" }
        { title := none, content := some "İçerik zorunludur" }).2.content =
      some "İçerik zorunludur" ∧
    (projectDescriptionOnChange "new text"
        { title := "T", description := "old", image := "", link := "", tags := [] }
        { title := none, description := some "Açıklama zorunludur",
          image := none, link := none }).2.description =
      some "Açıklama zorunludur" := by decide

/-- Claim C3: a submit whose draft fails validation performs no create and
no update — the resulting component state equals the old one except for the
field-keyed error annotations (so the posts list, the storage blob, the
editing selection and the draft are untouched), and the project variant
issues no api call. -/
theorem invalid_submit_leaves_store_untouched :
    (∀ (nowId nowDate : String) (s : BlogState),
      (validateBlogForm s.formData).isEmpty = false →
        handleBlogSubmit nowId nowDate s =
          { s with formErrors := validateBlogForm s.formData }) ∧
    (∀ (isValidUrl : String → Bool) (remote : Option (List Project)) (s : ProjectState),
      (validateProjectForm isValidUrl s.formData).isEmpty = false →
        handleProjectSubmit isValidUrl remote s =
          ({ s with formErrors := validateProjectForm isValidUrl s.formData }, [])) := by
  constructor
  · intro nowId nowDate s h
    simp [handleBlogSubmit, h]
  · intro f remote s h
    simp [handleProjectSubmit, h]

/-- Witness for C3 at a concrete invalid draft (empty title). -/
theorem invalid_submit_leaves_store_untouched_witness :
    handleBlogSubmit "1" "D"
      { posts := [{ id := "5", title := "T", content := "C", date := "D0" }],
        editingPost := none,
        formData := { title := "", content := "" },
        formErrors := { title := none, content := none },
        storage := .wellFormed [{ id := "5", title := "T", content := "C", date := "D0" }] } =
    { posts := [{ id := "5", title := "T", content := "C", date := "D0" }],
      editingPost := none,
      formData := { title := "", content := "" },
      formErrors := validateBlogForm { title := "", content := "" },
      storage := .wellFormed [{ id := "5", title := "T", content := "C", date := "D0" }] } ∧
    handleProjectSubmit (fun _ => true) none
      { projects := [], editingProject := none,
        formData := { title := "", description := "", image := "", link := "", tags := [] },
        formErrors := { title := none, description := none, image := none, link := none },
        error := none } =
    ({ projects := [], editingProject := none,
       formData := { title := "", description := "", image := "", link := "", tags := [] },
       formErrors := validateProjectForm (fun _ => true)
         { title := "", description := "", image := "", link := "", tags := [] },
       error := none }, []) :=
  ⟨invalid_submit_leaves_store_untouched.1 "1" "D" _ (by decide),
   invalid_submit_leaves_store_untouched.2 (fun _ => true) none _ (by decide)⟩

/-- Claim C6 (amended): only the Project delete is preceded by the blocking
yes/no confirmation — answering no leaves the state unchanged and issues no
api call; the BlogPost delete runs unconditionally, never consulting a
confirmation answer. -/
theorem delete_confirmation_only_for_projects :
    (∀ (remote : Option (List Project)) (id : String) (s : ProjectState),
      handleProjectDelete false remote id s = (s, [])) ∧
    (∀ (answer : Bool) (id : String) (s : BlogState),
      blogDeleteIntent answer id s = handleBlogDelete id s) :=
  ⟨fun _ _ _ => rfl, fun _ _ _ => rfl⟩

/-- Counterexample to C6 as stated: a blog delete with the (hypothetical)
confirmation answered no still removes the record and rewrites the persisted
collection. -/
theorem blog_delete_ignores_confirmation_counterexample :
    blogDeleteIntent false "1"
      { posts := [{ id := "1", title := "T", content := "C", date := "D" }],
        editingPost := none,
        formData := { title := "", content := "" },
        formErrors := { title := none, content := none },
        storage := .wellFormed [{ id := "1", title := "T", content := "C", date := "D" }] } =
      { posts := [], editingPost := none,
        formData := { title := "", content := "" },
        formErrors := { title := none, content := none },
        storage := .wellFormed [] } := by decide

/-- Claim C7 (amended): the mount read yields the empty collection when the
stored key is absent and the parsed posts when it is well-formed, but a
malformed stored value makes `JSON.parse` throw and the error propagates out
of the effect instead of being recovered to the empty collection. -/
theorem blog_mount_recovers_only_absent :
    blogMountPosts .absent = .ok [] ∧
    (∀ ps, blogMountPosts (.wellFormed ps) = .ok ps) ∧
    blogMountPosts .malformed = .error "SyntaxError: JSON.parse" :=
  ⟨rfl, fun _ => rfl, rfl⟩

/-- Counterexample to C7 as stated: on malformed stored data the mount read
propagates a parse error; it does not return the empty collection. -/
theorem blog_mount_malformed_counterexample :
    blogMountPosts .malformed ≠ .ok [] ∧
    blogMountPosts .malformed = .error "SyntaxError: JSON.parse" :=
  ⟨fun h => Except.noConfusion h, rfl⟩

/-- Claim C8: after `delete(id)` no record with that id remains; when no
record with that id existed the collection is exactly unchanged (and no
error is signalled — the handler is total); and delete is idempotent. -/
theorem blog_delete_removes_and_is_idempotent (id : String) (s : BlogState) :
    (∀ p ∈ (handleBlogDelete id s).posts, p.id ≠ id) ∧
    ((∀ p ∈ s.posts, p.id ≠ id) → (handleBlogDelete id s).posts = s.posts) ∧
    handleBlogDelete id (handleBlogDelete id s) = handleBlogDelete id s := by
  refine ⟨?_, ?_, ?_⟩
  · intro p hp
    simp only [handleBlogDelete, List.mem_filter, decide_eq_true_eq] at hp
    exact hp.2
  · intro h
    simp only [handleBlogDelete]
    exact List.filter_eq_self.mpr fun a ha => by simpa using h a ha
  · have hff : ((s.posts.filter fun p => p.id ≠ id).filter fun p => p.id ≠ id) =
        (s.posts.filter fun p => p.id ≠ id) :=
      List.filter_eq_self.mpr fun a ha => (List.mem_filter.mp ha).2
    simp only [handleBlogDelete, hff]

/-- Witness for C8: deleting an absent id at a concrete state leaves the
collection unchanged. -/
theorem blog_delete_removes_and_is_idempotent_witness :
    (handleBlogDelete "9"
      { posts := [{ id := "1", title := "T", content := "C", date := "D" }],
        editingPost := none,
        formData := { title := "", content := "" },
        formErrors := { title := none, content := none },
        storage := .absent }).posts =
    ({ posts := [{ id := "1", title := "T", content := "C", date := "D" }],
       editingPost := none,
       formData := { title := "", content := "" },
       formErrors := { title := none, content := none },
       storage := .absent } : BlogState).posts :=
  (blog_delete_removes_and_is_idempotent "9" _).2.1 (by decide)

/-- Claim C9: a mounted Resilient Image instance renders the supplied source
first; any event trace containing a load failure leaves the has-errored flag
set, and the render after it uses the fallback source — re-renders never
reset the flag, so the original source is never used again. -/
theorem image_fallback_after_error (p : ImageProps) (pre post : List ImgEvent) :
    renderSrc p false = p.src ∧
    runEvents false (pre ++ ImgEvent.loadFail :: post) = true ∧
    renderSrc p (runEvents false (pre ++ ImgEvent.loadFail :: post)) =
      effectiveFallback p := by
  have h : runEvents false (pre ++ ImgEvent.loadFail :: post) = true := by
    unfold runEvents
    rw [List.foldl_append, List.foldl_cons]
    exact runEvents_of_true post
  exact ⟨rfl, h, by rw [h]; rfl⟩

/-- Claim C10: with no fallback prop supplied, the component falls back to
the default source `/images/placeholder.png` after a load failure. -/
theorem image_default_fallback (src : String) (evs : List ImgEvent) :
    effectiveFallback { src := src, fallback := none } = "/images/placeholder.png" ∧
    renderSrc { src := src, fallback := none }
      (runEvents false (ImgEvent.loadFail :: evs)) = "/images/placeholder.png" := by
  refine ⟨rfl, ?_⟩
  have h : runEvents false (ImgEvent.loadFail :: evs) = true := by
    unfold runEvents
    rw [List.foldl_cons]
    exact runEvents_of_true evs
  rw [h]
  rfl

/-- Claim C1 (amended): in the Editing state for a record of the collection
whose id and creation date are non-empty strings (ids pairwise distinct, the
documented invariant), a submit with a valid draft replaces that record in
place with the draft's field values while keeping its original id and its
original creation date, leaves every record with a different id unchanged,
preserves the order, persists exactly the updated collection, and returns to
the Creating state. -/
theorem blog_update_preserves_identity
    (nowId nowDate : String) (s : BlogState) (ep : BlogPost)
    (hedit : s.editingPost = some ep)
    (hvalid : (validateBlogForm s.formData).isEmpty = true)
    (hid : ep.id ≠ "") (hdate : ep.date ≠ "")
    (hmem : ep ∈ s.posts)
    (hnodup : (s.posts.map BlogPost.id).Nodup) :
    (handleBlogSubmit nowId nowDate s).posts =
      s.posts.map (fun p =>
        if p.id = ep.id then
          { id := p.id, title := s.formData.title,
            content := s.formData.content, date := p.date }
        else p) ∧
    (handleBlogSubmit nowId nowDate s).storage =
      Stored.wellFormed ((handleBlogSubmit nowId nowDate s).posts) ∧
    (handleBlogSubmit nowId nowDate s).editingPost = none := by
  have hsub : handleBlogSubmit nowId nowDate s =
      { posts := s.posts.map (fun p =>
          if p.id = ep.id then
            { id := ep.id, title := s.formData.title,
              content := s.formData.content, date := ep.date }
          else p)
        editingPost := none
        formData := { title := "", content := "" }
        formErrors := validateBlogForm s.formData
        storage := .wellFormed (s.posts.map (fun p =>
          if p.id = ep.id then
            { id := ep.id, title := s.formData.title,
              content := s.formData.content, date := ep.date }
          else p)) } := by
    simp [handleBlogSubmit, hvalid, hedit, hid, hdate]
  have hcongr : s.posts.map (fun p =>
        if p.id = ep.id then
          ({ id := ep.id, title := s.formData.title,
             content := s.formData.content, date := ep.date } : BlogPost)
        else p) =
      s.posts.map (fun p =>
        if p.id = ep.id then
          { id := p.id, title := s.formData.title,
            content := s.formData.content, date := p.date }
        else p) := by
    apply List.map_congr_left
    intro a ha
    by_cases h : a.id = ep.id
    · have hae : a = ep := List.inj_on_of_nodup_map hnodup ha hmem h
      subst hae
      simp [h]
    · simp [h]
  rw [hsub]
  exact ⟨hcongr, rfl, rfl⟩

/-- Witness for C1 at a concrete two-post collection, editing the post with
id 7. -/
theorem blog_update_preserves_identity_witness :
    (handleBlogSubmit "999" "2025-01-01T00:00:00.000Z"
      { posts := [{ id := "7", title := "Old", content := "OldC", date := "2024-01-01" },
                  { id := "8", title := "Other", content := "OtherC", date := "2024-02-02" }],
        editingPost := some { id := "7", title := "Old", content := "OldC", date := "2024-01-01" },
        formData :=
          { title := "Edited title",
            content := "This content is certainly long enough to pass the fifty character rule." },
        formErrors := { title := none, content := none },
        storage := .wellFormed
          [{ id := "7", title := "Old", content := "OldC", date := "2024-01-01" },
           { id := "8", title := "Other", content := "OtherC", date := "2024-02-02" }] }).posts =
      ([{ id := "7", title := "Old", content := "OldC", date := "2024-01-01" },
        { id := "8", title := "Other", content := "OtherC", date := "2024-02-02" }] :
          List BlogPost).map (fun p =>
        if p.id = "7" then
          { id := p.id, title := "Edited title",
            content := "This content is certainly long enough to pass the fifty character rule.",
            date := p.date }
        else p) :=
  (blog_update_preserves_identity "999" "2025-01-01T00:00:00.000Z"
    { posts := [{ id := "7", title := "Old", content := "OldC", date := "2024-01-01" },
                { id := "8", title := "Other", content := "OtherC", date := "2024-02-02" }],
      editingPost := some { id := "7", title := "Old", content := "OldC", date := "2024-01-01" },
      formData :=
        { title := "Edited title",
          content := "This content is certainly long enough to pass the fifty character rule." },
      formErrors := { title := none, content := none },
      storage := .wellFormed
        [{ id := "7", title := "Old", content := "OldC", date := "2024-01-01" },
         { id := "8", title := "Other", content := "OtherC", date := "2024-02-02" }] }
    { id := "7", title := "Old", content := "OldC", date := "2024-01-01" }
    rfl (by decide) (by decide) (by decide) (by decide) (by decide)).1

/-- Counterexample to C1 as stated: a stored record whose id and date are
the empty string is falsy under the JavaScript `||` defaults, so the submit
assigns it a fresh id and a fresh date instead of preserving the originals;
the collection the claim demands is not the one produced. -/
theorem blog_update_empty_id_counterexample :
    (handleBlogSubmit "1730000000000" "2024-11-01T00:00:00.000Z"
      { posts := [{ id := "", title := "Old", content := "OldC", date := "" }],
        editingPost := some { id := "", title := "Old", content := "OldC", date := "" },
        formData :=
          { title := "New title",
            content := "This content is certainly long enough to pass the fifty character rule." },
        formErrors := { title := none, content := none },
        storage := .wellFormed [{ id := "", title := "Old", content := "OldC", date := "" }] }).posts ≠
    [{ id := "", title := "New title",
       content := "This content is certainly long enough to pass the fifty character rule.",
       date := "" }] := by decide

end Echo
